import Mathlib

/-!
Shallow embedding of `src/TimerGifCreator/TimerGifCreator.py`.

The script is a single linear Python program: it formats countdown labels
with `nice_time`, builds one list of labels per starting time inside
`create_timer_gif` via `range(total_seconds, max(total_seconds - 60, -1), -1)`,
assembles the frames into a GIF with fixed delay / disposal / loop settings,
and the top level loops `for minutes in range(15, 0, -1)`.

Integers are embedded as `Int` (Python ints are unbounded); Python's
`divmod` is floor division, embedded with `Int.fdiv` / `Int.fmod`; Python's
`range(a, b, -1)` is embedded as `pyRangeDown`; the format spec `02d` is
embedded as `format02d`, rendering decimal digits with zero padding to
width 2 (sign included in the width, as Python does).
-/

namespace TimerGifCreator

/-- The character for a single decimal digit value, `chr(48 + n)`. -/
def digitChar (n : Nat) : Char := Char.ofNat (48 + n)

/-- Fuel-driven decimal rendering of a natural number, most significant
digit first. The fuel only serves to make the recursion structural; it is
always called with enough fuel. -/
def decimalDigitsCore : Nat → Nat → List Char
  | 0, _ => []
  | fuel + 1, n =>
    if n < 10 then [digitChar n]
    else decimalDigitsCore fuel (n / 10) ++ [digitChar (n % 10)]

/-- Decimal digits of a natural number, most significant first. -/
def decimalDigits (n : Nat) : List Char := decimalDigitsCore (n + 1) n

/-- Pad a digit list on the left with the character 0 up to width `w`,
as Python's zero-padded format specs do for the digit part. -/
def padLeft (w : Nat) (l : List Char) : List Char :=
  List.replicate (w - l.length) '0' ++ l

/-- Python's format spec `02d` applied to an integer: minimum field width 2,
zero padding, the sign counted inside the field width. -/
def format02dChars (n : Int) : List Char :=
  if n < 0 then '-' :: padLeft 1 (decimalDigits n.natAbs)
  else padLeft 2 (decimalDigits n.toNat)

/-- `format02dChars` packaged as a string. -/
def format02d (n : Int) : String := String.mk (format02dChars n)

/-- Embedding of `nice_time`: `m, s = divmod(seconds, 60)` followed by
formatting both halves with `02d` around a colon. Python's `divmod` is
floor division, i.e. `Int.fdiv` / `Int.fmod`. -/
def nice_time (seconds : Int) : String :=
  format02d (Int.fdiv seconds 60) ++ ":" ++ format02d (Int.fmod seconds 60)

/-- Embedding of Python's `range(start, stop, -1)`: the descending list
`start, start - 1, ...` with `stop` excluded. -/
def pyRangeDown (start stop : Int) : List Int :=
  (List.range (start - stop).toNat).map (fun (i : Nat) => start - (i : Int))

/-- The fixed output directory constant of the script. -/
def output_dir : String := "timer_gifs"

/-- The filename computed at the top of `create_timer_gif`. -/
def create_timer_gif_filename (start_minutes start_seconds : Int) : String :=
  output_dir ++ "/timer_" ++ format02d start_minutes ++ "_" ++
    format02d start_seconds ++ ".gif"

/-- The `labels` list built in `create_timer_gif`:
`[nice_time(s) for s in range(total_seconds, max(total_seconds - 60, -1), -1)]`. -/
def create_timer_gif_labels (start_minutes start_seconds : Int) : List String :=
  let total_seconds := start_minutes * 60 + start_seconds
  (pyRangeDown total_seconds (max (total_seconds - 60) (-1))).map nice_time

/-- The list of countdown values `create_timer_gif` passes to `nice_time`. -/
def create_timer_gif_values (start_minutes start_seconds : Int) : List Int :=
  let total_seconds := start_minutes * 60 + start_seconds
  pyRangeDown total_seconds (max (total_seconds - 60) (-1))

/-- The per-frame settings assigned inside the frame loop of
`create_timer_gif`. -/
structure FrameSpec where
  label : String
  delay : Nat
  dispose : String
  deriving DecidableEq

/-- The animation-level settings assigned on the `gif` image before saving. -/
structure GifSpec where
  frames : List FrameSpec
  dispose : String
  delay : Nat
  loop : Nat
  type : String
  deriving DecidableEq

/-- Embedding of `create_timer_gif`, recording the metadata the script sets:
one frame per label with `delay = 100` and `dispose = background`, and the
animation-level `dispose`, `delay`, `loop` and `type` assignments. -/
def create_timer_gif (start_minutes start_seconds : Int) : GifSpec :=
  { frames := (create_timer_gif_labels start_minutes start_seconds).map
      (fun label => { label := label, delay := 100, dispose := "background" }),
    dispose := "background",
    delay := 100,
    loop := 0,
    type := "optimize" }

/-- The argument pairs of the top-level loop
`for minutes in range(15, 0, -1): create_timer_gif(minutes, 0)`. -/
def main_calls : List (Int × Int) :=
  (pyRangeDown 15 0).map (fun minutes => (minutes, 0))

/-- The filenames written by one run of the script, in order. -/
def main_files : List String :=
  main_calls.map (fun p => create_timer_gif_filename p.1 p.2)

/-- The descending inclusive integer range from `start` down to `stop`. -/
def rangeDownIncl (start stop : Int) : List Int :=
  (List.range (start - stop + 1).toNat).map (fun (i : Nat) => start - (i : Int))

/-- Modelled from the spec sentence of claim C2, for comparison with the
code: the formatted times of each integer from `total_seconds` down to
`max(total_seconds - 60, 0)` inclusive, in descending order. -/
def spec_labels_C2 (start_minutes start_seconds : Int) : List String :=
  let total_seconds := start_minutes * 60 + start_seconds
  (rangeDownIncl total_seconds (max (total_seconds - 60) 0)).map nice_time

/-- The zero-padded width-2 decimal field of a natural number, used to state
what the `MM` and `SS` fields of `nice_time` contain. -/
def natField2 (n : Nat) : String := String.mk (padLeft 2 (decimalDigits n))

/-! ### Helper lemmas -/

lemma decimalDigitsCore_ne_nil (fuel n : Nat) (h : 0 < fuel) :
    decimalDigitsCore fuel n ≠ [] := by
  match fuel with
  | f + 1 =>
    unfold decimalDigitsCore
    split
    · simp
    · simp

lemma decimalDigitsCore_head_ne_zero (fuel : Nat) :
    ∀ n : Nat, n < fuel → n ≠ 0 → (decimalDigitsCore fuel n).head? ≠ some '0' := by
  induction fuel with
  | zero => intro n h; omega
  | succ f ih =>
    intro n hlt hn
    unfold decimalDigitsCore
    split
    case isTrue h10 =>
      have hd : ∀ m : Nat, m < 10 → m ≠ 0 → digitChar m ≠ '0' := by decide
      simp only [List.head?_cons, ne_eq, Option.some.injEq]
      exact hd n h10 hn
    case isFalse h10 =>
      have hf : 0 < f := by omega
      have hne := decimalDigitsCore_ne_nil f (n / 10) hf
      obtain ⟨a, t, hat⟩ := List.exists_cons_of_ne_nil hne
      have hrec := ih (n / 10) (by
        have := Nat.div_lt_self (by omega : 0 < n) (by omega : 1 < 10)
        omega) (by omega)
      rw [hat] at hrec ⊢
      simpa using hrec

lemma decimalDigits_ne_nil (n : Nat) : decimalDigits n ≠ [] :=
  decimalDigitsCore_ne_nil (n + 1) n (by omega)

lemma decimalDigits_head_ne_zero (n : Nat) (hn : n ≠ 0) :
    (decimalDigits n).head? ≠ some '0' :=
  decimalDigitsCore_head_ne_zero (n + 1) n (by omega) hn

lemma padLeft_two_eq_zeros (n : Nat) (h : padLeft 2 (decimalDigits n) = ['0', '0']) :
    n = 0 := by
  by_contra hn
  have hhd := decimalDigits_head_ne_zero n hn
  obtain ⟨a, t, hat⟩ := List.exists_cons_of_ne_nil (decimalDigits_ne_nil n)
  rw [hat] at h hhd
  simp only [List.head?_cons, ne_eq, Option.some.injEq] at hhd
  match t, h with
  | [], h => simp [padLeft, List.replicate] at h; exact hhd h
  | [b], h => simp [padLeft, List.replicate] at h; exact hhd h.1
  | b :: c :: t', h => simp [padLeft, List.replicate] at h

lemma length_padLeft (w : Nat) (l : List Char) :
    (padLeft w l).length = (w - l.length) + l.length := by
  simp [padLeft]

lemma decimalDigits_length_le_two : ∀ n : Nat, n < 60 → (decimalDigits n).length ≤ 2 := by
  decide

lemma fdiv_natCast_sixty (n : Nat) : Int.fdiv (n : Int) 60 = ((n / 60 : Nat) : Int) := by
  rw [Int.fdiv_eq_ediv _ (by omega)]
  omega

lemma fmod_natCast_sixty (n : Nat) : Int.fmod (n : Int) 60 = ((n % 60 : Nat) : Int) := by
  rw [Int.fmod_eq_emod _ (by omega)]
  omega

lemma format02dChars_natCast (k : Nat) :
    format02dChars (k : Int) = padLeft 2 (decimalDigits k) := by
  unfold format02dChars
  rw [if_neg (by omega)]
  have h : ((k : Int)).toNat = k := by omega
  rw [h]

lemma format02d_natCast (k : Nat) : format02d (k : Int) = natField2 k := by
  unfold format02d natField2
  rw [format02dChars_natCast]

lemma length_natField2_ge (k : Nat) : 2 ≤ (natField2 k).length := by
  show 2 ≤ (padLeft 2 (decimalDigits k)).length
  rw [length_padLeft]
  omega

lemma length_natField2_small (k : Nat) (hk : k < 60) : (natField2 k).length = 2 := by
  show (padLeft 2 (decimalDigits k)).length = 2
  rw [length_padLeft]
  have := decimalDigits_length_le_two k hk
  omega

lemma length_format02dChars_nonneg (q : Int) (hq : 0 ≤ q) :
    2 ≤ (format02dChars q).length := by
  obtain ⟨n, rfl⟩ : ∃ n : Nat, q = (n : Int) := ⟨q.toNat, by omega⟩
  rw [format02dChars_natCast, length_padLeft]
  omega

lemma length_format02dChars_small (r : Int) (h0 : 0 ≤ r) (h60 : r < 60) :
    (format02dChars r).length = 2 := by
  obtain ⟨n, rfl⟩ : ∃ n : Nat, r = (n : Int) := ⟨r.toNat, by omega⟩
  rw [format02dChars_natCast, length_padLeft]
  have := decimalDigits_length_le_two n (by omega)
  omega

lemma format02dChars_eq_zeros (q : Int) (hq : 0 ≤ q)
    (h : format02dChars q = ['0', '0']) : q = 0 := by
  obtain ⟨n, rfl⟩ : ∃ n : Nat, q = (n : Int) := ⟨q.toNat, by omega⟩
  rw [format02dChars_natCast] at h
  have := padLeft_two_eq_zeros n h
  omega

lemma nice_time_ne_zero_label (x : Int) (hx : 1 ≤ x) : nice_time x ≠ "00:00" := by
  intro h
  have hqr : 60 * Int.fdiv x 60 + Int.fmod x 60 = x := Int.fdiv_add_fmod x 60
  have hr0 : 0 ≤ Int.fmod x 60 := Int.fmod_nonneg' x (by omega)
  have hr60 : Int.fmod x 60 < 60 := Int.fmod_lt_of_pos x (by omega)
  have hq0 : 0 ≤ Int.fdiv x 60 := by omega
  have hdata : (nice_time x).data = ("00:00").data := congrArg String.data h
  have hz : ("00:00").data = ['0', '0', ':', '0', '0'] := rfl
  rw [hz] at hdata
  unfold nice_time format02d at hdata
  rw [String.data_append, String.data_append] at hdata
  have hcolon : (":").data = [':'] := rfl
  simp only [hcolon] at hdata
  have hdata' : format02dChars (Int.fdiv x 60) ++ ':' :: format02dChars (Int.fmod x 60) =
      ['0', '0'] ++ ':' :: ['0', '0'] := by simpa using hdata
  have hlen := congrArg List.length hdata'
  simp only [List.length_append, List.length_cons, List.length_nil] at hlen
  have hlr := length_format02dChars_small _ hr0 hr60
  have hlq := length_format02dChars_nonneg _ hq0
  have hlq2 : (format02dChars (Int.fdiv x 60)).length = ([('0' : Char), '0']).length := by
    simp only [List.length_cons, List.length_nil]
    omega
  obtain ⟨h1, h2⟩ := List.append_inj hdata' (by simpa using hlq2)
  have h2' : format02dChars (Int.fmod x 60) = ['0', '0'] := by
    injection h2
  have hq := format02dChars_eq_zeros _ hq0 h1
  have hr := format02dChars_eq_zeros _ hr0 h2'
  omega

/-! ### Claim theorems -/

/-- C1 (counterexample): for start_minutes = 1 and start_seconds = 0 the
label sequence does not have 61 entries with last entry 00:00. -/
theorem C1_counterexample :
    ¬ ((create_timer_gif_labels 1 0).length = 61 ∧
      (create_timer_gif_labels 1 0).getLast? = some "00:00") := by
  decide

/-- C1 (amended): for start_minutes = 1 and start_seconds = 0 the label
sequence produced by create_timer_gif has exactly 60 entries, the first
being 01:00 and the last being 00:01, descending one second per entry; the
exclusive lower bound of the Python range excludes 00:00. -/
theorem C1_labels_one_minute :
    create_timer_gif_labels 1 0 =
      ["01:00", "00:59", "00:58", "00:57", "00:56", "00:55", "00:54", "00:53",
      "00:52", "00:51", "00:50", "00:49", "00:48", "00:47", "00:46", "00:45",
      "00:44", "00:43", "00:42", "00:41", "00:40", "00:39", "00:38", "00:37",
      "00:36", "00:35", "00:34", "00:33", "00:32", "00:31", "00:30", "00:29",
      "00:28", "00:27", "00:26", "00:25", "00:24", "00:23", "00:22", "00:21",
      "00:20", "00:19", "00:18", "00:17", "00:16", "00:15", "00:14", "00:13",
      "00:12", "00:11", "00:10", "00:09", "00:08", "00:07", "00:06", "00:05",
      "00:04", "00:03", "00:02", "00:01"] := by
  decide

/-- C2 (counterexample): at start_minutes = 1, start_seconds = 0 the label
sequence produced by the code differs from the formatted times of each
integer from total_seconds down to max(total_seconds - 60, 0) inclusive:
the latter has 61 entries, the code produces 60. -/
theorem C2_counterexample : create_timer_gif_labels 1 0 ≠ spec_labels_C2 1 0 := by
  decide

/-- C2 (amended): for every non-negative start, the label sequence produced
by create_timer_gif is the formatted times of each integer from
total_seconds down to max(total_seconds - 59, 0) inclusive, in descending
order. -/
theorem C2_labels_range (m s : Int) (hm : 0 ≤ m) (hs : 0 ≤ s) :
    create_timer_gif_labels m s =
      (rangeDownIncl (m * 60 + s) (max (m * 60 + s - 59) 0)).map nice_time := by
  simp only [create_timer_gif_labels, pyRangeDown, rangeDownIncl]
  have hk : (m * 60 + s - max (m * 60 + s - 60) (-1)).toNat =
      (m * 60 + s - max (m * 60 + s - 59) 0 + 1).toNat := by omega
  rw [hk]

/-- Witness for C2_labels_range at start 01:00. -/
theorem C2_labels_range_witness :
    (0 : Int) ≤ 1 ∧ (0 : Int) ≤ 0 ∧
      create_timer_gif_labels 1 0 =
        (rangeDownIncl (1 * 60 + 0) (max (1 * 60 + 0 - 59) 0)).map nice_time :=
  ⟨by decide, by decide, C2_labels_range 1 0 (by decide) (by decide)⟩

/-- C3: for every non-negative integer s, nice_time s is the minutes field,
a colon, and the seconds field, where the minutes field is the decimal
rendering of s / 60 zero-padded to at least 2 characters and the seconds
field is the decimal rendering of s % 60, always in the interval from 0 to
59, zero-padded to exactly 2 characters. -/
theorem C3_nice_time_shape (s : Int) (hs : 0 ≤ s) :
    nice_time s = natField2 (s.toNat / 60) ++ ":" ++ natField2 (s.toNat % 60) ∧
    2 ≤ (natField2 (s.toNat / 60)).length ∧
    (natField2 (s.toNat % 60)).length = 2 ∧
    s.toNat % 60 < 60 := by
  obtain ⟨n, rfl⟩ : ∃ n : Nat, s = (n : Int) := ⟨s.toNat, by omega⟩
  have hn : ((n : Int)).toNat = n := by omega
  rw [hn]
  refine ⟨?_, length_natField2_ge _,
    length_natField2_small _ (Nat.mod_lt _ (by omega)), Nat.mod_lt _ (by omega)⟩
  unfold nice_time
  rw [fdiv_natCast_sixty, fmod_natCast_sixty, format02d_natCast, format02d_natCast]

/-- Witness for C3_nice_time_shape at s = 61. -/
theorem C3_nice_time_shape_witness :
    (0 : Int) ≤ 61 ∧
      (nice_time 61 = natField2 ((61 : Int).toNat / 60) ++ ":" ++
          natField2 ((61 : Int).toNat % 60) ∧
       2 ≤ (natField2 ((61 : Int).toNat / 60)).length ∧
       (natField2 ((61 : Int).toNat % 60)).length = 2 ∧
       (61 : Int).toNat % 60 < 60) :=
  ⟨by decide, C3_nice_time_shape 61 (by decide)⟩

/-- C4: for every non-negative start, every countdown value that
create_timer_gif passes to nice_time is non-negative. -/
theorem C4_values_nonneg (m s : Int) (hm : 0 ≤ m) (hs : 0 ≤ s) :
    ∀ x ∈ create_timer_gif_values m s, 0 ≤ x := by
  intro x hx
  simp only [create_timer_gif_values, pyRangeDown, List.mem_map,
    List.mem_range] at hx
  obtain ⟨i, hi, rfl⟩ := hx
  omega

/-- Witness for C4_values_nonneg at start 01:00 and value 60. -/
theorem C4_values_nonneg_witness :
    (60 : Int) ∈ create_timer_gif_values 1 0 ∧ (0 : Int) ≤ 60 :=
  ⟨by decide, C4_values_nonneg 1 0 (by decide) (by decide) 60 (by decide)⟩

/-- C5: for every non-negative start, the label sequence has at most 61
entries, and the animation has exactly one frame per label. -/
theorem C5_label_count_le (m s : Int) (hm : 0 ≤ m) (hs : 0 ≤ s) :
    (create_timer_gif_labels m s).length ≤ 61 ∧
    (create_timer_gif m s).frames.length = (create_timer_gif_labels m s).length := by
  constructor
  · simp only [create_timer_gif_labels, pyRangeDown, List.length_map,
      List.length_range]
    omega
  · simp [create_timer_gif]

/-- Witness for C5_label_count_le at start 01:00. -/
theorem C5_label_count_le_witness :
    (create_timer_gif_labels 1 0).length ≤ 61 ∧
    (create_timer_gif 1 0).frames.length = (create_timer_gif_labels 1 0).length :=
  C5_label_count_le 1 0 (by decide) (by decide)

/-- C6: one run of the script calls create_timer_gif exactly 15 times, with
start_minutes from 15 down to 1 and start_seconds 0, and writes exactly the
15 files timer_15_00.gif down to timer_01_00.gif under timer_gifs. -/
theorem C6_main_run :
    main_calls = [(15, 0), (14, 0), (13, 0), (12, 0), (11, 0), (10, 0), (9, 0),
      (8, 0), (7, 0), (6, 0), (5, 0), (4, 0), (3, 0), (2, 0), (1, 0)] ∧
    main_files = ["timer_gifs/timer_15_00.gif", "timer_gifs/timer_14_00.gif",
      "timer_gifs/timer_13_00.gif", "timer_gifs/timer_12_00.gif",
      "timer_gifs/timer_11_00.gif", "timer_gifs/timer_10_00.gif",
      "timer_gifs/timer_09_00.gif", "timer_gifs/timer_08_00.gif",
      "timer_gifs/timer_07_00.gif", "timer_gifs/timer_06_00.gif",
      "timer_gifs/timer_05_00.gif", "timer_gifs/timer_04_00.gif",
      "timer_gifs/timer_03_00.gif", "timer_gifs/timer_02_00.gif",
      "timer_gifs/timer_01_00.gif"] := by
  decide

/-- C7: every animation assembled by create_timer_gif sets each frame's
delay to 100 centiseconds and each frame's disposal to background, and sets
the animation's loop count to 0, looping forever. -/
theorem C7_frame_settings (m s : Int) :
    (create_timer_gif m s).loop = 0 ∧ (create_timer_gif m s).delay = 100 ∧
    ∀ f ∈ (create_timer_gif m s).frames, f.delay = 100 ∧ f.dispose = "background" := by
  refine ⟨rfl, rfl, ?_⟩
  intro f hf
  simp only [create_timer_gif, List.mem_map] at hf
  obtain ⟨l, _, rfl⟩ := hf
  exact ⟨rfl, rfl⟩

/-- Witness for C7_frame_settings at start 01:00 and its first frame. -/
theorem C7_frame_settings_witness :
    (⟨"01:00", 100, "background"⟩ : FrameSpec) ∈ (create_timer_gif 1 0).frames ∧
    ((⟨"01:00", 100, "background"⟩ : FrameSpec).delay = 100 ∧
     (⟨"01:00", 100, "background"⟩ : FrameSpec).dispose = "background") :=
  ⟨by decide, (C7_frame_settings 1 0).2.2 _ (by decide)⟩

/-- C8: whenever total_seconds is at least 60, the label sequence has
exactly 60 entries, its last entry is nice_time of total_seconds - 59, and
00:00 does not occur in it. -/
theorem C8_sixty_or_more (m s : Int) (hm : 0 ≤ m) (hs : 0 ≤ s)
    (h60 : 60 ≤ m * 60 + s) :
    (create_timer_gif_labels m s).length = 60 ∧
    (create_timer_gif_labels m s).getLast? = some (nice_time (m * 60 + s - 59)) ∧
    "00:00" ∉ create_timer_gif_labels m s := by
  have hmax : max (m * 60 + s - 60) (-1) = m * 60 + s - 60 := by omega
  have hk : (m * 60 + s - (m * 60 + s - 60)).toNat = 60 := by omega
  have hlabels : create_timer_gif_labels m s =
      ((List.range 60).map (fun (i : Nat) => m * 60 + s - (i : Int))).map nice_time := by
    simp only [create_timer_gif_labels, pyRangeDown, hmax, hk]
  refine ⟨?_, ?_, ?_⟩
  · rw [hlabels]
    simp
  · rw [hlabels, show List.range 60 = List.range 59 ++ [59] by decide]
    simp only [List.map_append, List.map_cons, List.map_nil, List.getLast?_concat]
    norm_num
  · rw [hlabels, List.map_map]
    intro hmem
    simp only [List.mem_map, List.mem_range, Function.comp] at hmem
    obtain ⟨i, hi, heq⟩ := hmem
    exact nice_time_ne_zero_label _ (by omega) heq

/-- Witness for C8_sixty_or_more at start 01:00. -/
theorem C8_sixty_or_more_witness :
    (0 : Int) ≤ 1 ∧ (60 : Int) ≤ 1 * 60 + 0 ∧
      ((create_timer_gif_labels 1 0).length = 60 ∧
       (create_timer_gif_labels 1 0).getLast? = some (nice_time (1 * 60 + 0 - 59)) ∧
       "00:00" ∉ create_timer_gif_labels 1 0) :=
  ⟨by decide, by decide, C8_sixty_or_more 1 0 (by decide) (by decide) (by decide)⟩

/-- C9: nice_time is total on all integers; for every s it renders the
unique pair q, r with s = 60 * q + r and r between 0 and 59 as the
zero-padded fields around a colon, and in particular
nice_time (-1) = "-1:59". -/
theorem C9_nice_time_total :
    (∀ s : Int, ∃ q r : Int, s = 60 * q + r ∧ 0 ≤ r ∧ r < 60 ∧
      nice_time s = format02d q ++ ":" ++ format02d r) ∧
    nice_time (-1) = "-1:59" := by
  constructor
  · intro s
    exact ⟨Int.fdiv s 60, Int.fmod s 60, (Int.fdiv_add_fmod s 60).symm,
      Int.fmod_nonneg' s (by omega), Int.fmod_lt_of_pos s (by omega), rfl⟩
  · decide

/-- C10: the 15 filenames written in one run are pairwise distinct, so no
file written earlier in the run is overwritten later in the same run. -/
theorem C10_filenames_distinct : main_files.Nodup ∧ main_files.length = 15 := by
  decide

end TimerGifCreator
